import Mathlib

/-!
Verification of the WinSpd user-mode API header (src/inc/winspd/winspd.h).

The three inline functions of the header — SpdStorageUnitGetDispatcherError,
SpdStorageUnitSetDispatcherError and SpdStorageUnitStatusSetSense — are
embedded as pure Lean functions on explicit state.  C integer types carry no
arithmetic in these functions (only assignment and equality comparison), so
they are embedded as Nat.  InterlockedCompareExchange(&x, v, cmp) is the
atomic step: if x = cmp then x := v; under an atomic-step interleaving model
any concurrent execution of these calls is some sequential ordering, so the
concurrency claims are stated over all sequences of calls.
-/

namespace WinSpd

/-- Windows DWORD (32-bit unsigned); no arithmetic occurs on it here. -/
abbrev DWORD := Nat

/-- Windows success sentinel. -/
def ERROR_SUCCESS : DWORD := 0

/-- SCSI check-condition status value, from the platform scsi.h. -/
def SCSISTAT_CHECK_CONDITION : Nat := 0x02

/-- Modelled from the spec: SPD_IOCTL_STORAGE_UNIT_STATUS is declared in
winspd/ioctl.h, which is not under src.  Its fields are taken from the spec
(§3 Status: ScsiStatus, SenseKey, AdditionalSenseCode, 64-bit Information
with a validity flag) and from the field accesses made in winspd.h. -/
structure SPD_STORAGE_UNIT_STATUS where
  ScsiStatus : Nat
  SenseKey : Nat
  ASC : Nat
  Information : Nat
  InformationValid : Nat
deriving DecidableEq, Repr

/-- Embedding of SpdStorageUnitStatusSetSense (winspd.h).  The C function
writes through the caller's Status pointer; here it returns the updated
Status.  The nullable PInformation pointer is an Option carrying the
pointee's value. -/
def SpdStorageUnitStatusSetSense (status : SPD_STORAGE_UNIT_STATUS)
    (senseKey : Nat) (asc : Nat) (pInformation : Option Nat) :
    SPD_STORAGE_UNIT_STATUS :=
  let status1 := { status with
    ScsiStatus := SCSISTAT_CHECK_CONDITION
    SenseKey := senseKey
    ASC := asc }
  match pInformation with
  | some information =>
      { status1 with Information := information, InformationValid := 1 }
  | none => status1

/-- Embedding of struct _SPD_STORAGE_UNIT (winspd.h).  Pointer- and
handle-valued fields are opaque and embedded as Nat; only DispatcherError
is read or written by the functions verified here. -/
structure SPD_STORAGE_UNIT where
  Version : Nat
  UserContext : Nat
  StorageUnitParams : Nat
  Interface : Nat
  Handle : Nat
  Btl : Nat
  DispatcherThreadId : Nat
  DispatcherThread : Nat
  DispatcherThreadCount : Nat
  DispatcherError : DWORD
  DebugLog : Nat
deriving DecidableEq, Repr

/-- Embedding of SpdStorageUnitGetDispatcherError (winspd.h).  The C
function stores StorageUnit->DispatcherError into *PDispatcherError and
issues MemoryBarrier(), which has no sequential effect; here it returns the
value written through the out-pointer together with the (untouched) unit. -/
def SpdStorageUnitGetDispatcherError (storageUnit : SPD_STORAGE_UNIT) :
    DWORD × SPD_STORAGE_UNIT :=
  (storageUnit.DispatcherError, storageUnit)

/-- Embedding of SpdStorageUnitSetDispatcherError (winspd.h): an early
return when the argument is ERROR_SUCCESS, otherwise
InterlockedCompareExchange(&StorageUnit->DispatcherError, DispatcherError,
ERROR_SUCCESS), i.e. store the argument only when the register currently
holds ERROR_SUCCESS. -/
def SpdStorageUnitSetDispatcherError (storageUnit : SPD_STORAGE_UNIT)
    (dispatcherError : DWORD) : SPD_STORAGE_UNIT :=
  if dispatcherError = ERROR_SUCCESS then
    storageUnit
  else if storageUnit.DispatcherError = ERROR_SUCCESS then
    { storageUnit with DispatcherError := dispatcherError }
  else
    storageUnit

/-- A sequence of completed SpdStorageUnitSetDispatcherError calls, applied
in order.  Each call's compare-exchange is a single atomic step, so every
interleaving of concurrent callers is one such sequence. -/
def applyDispatcherErrors (storageUnit : SPD_STORAGE_UNIT)
    (writes : List DWORD) : SPD_STORAGE_UNIT :=
  writes.foldl SpdStorageUnitSetDispatcherError storageUnit

/-- Modelled from the spec: SPD_IOCTL_UNMAP_DESCRIPTOR is declared in
winspd/ioctl.h, which is not under src; per the spec an unmap descriptor is
a (block address, block count) pair. -/
structure SPD_UNMAP_DESCRIPTOR where
  BlockAddress : Nat
  BlockCount : Nat
deriving DecidableEq, Repr

/-- Modelled from the spec: the Unmap member of SPD_STORAGE_UNIT_INTERFACE
is a user-supplied callback whose implementation is not under src; only its
declaration is.  Per the spec (§4.2) the callback processes its descriptors
in order, issuing backing I/O for each, stops at the first failing
descriptor reporting failure, and an empty descriptor sequence is a trivial
no-op success.  `backing` is the per-descriptor backing I/O; the result is
the success flag together with the list of backing I/O actions issued. -/
def unmapCallback (backing : SPD_UNMAP_DESCRIPTOR → Bool) :
    List SPD_UNMAP_DESCRIPTOR → Bool × List SPD_UNMAP_DESCRIPTOR
  | [] => (true, [])
  | descriptor :: rest =>
      if backing descriptor then
        let tail := unmapCallback backing rest
        (tail.1, descriptor :: tail.2)
      else
        (false, [descriptor])

/-- Helper: a set call that finds the register non-success leaves the whole
unit unchanged, and so does any sequence of such calls. -/
theorem applyDispatcherErrors_of_ne
    (storageUnit : SPD_STORAGE_UNIT) (writes : List DWORD)
    (h : storageUnit.DispatcherError ≠ ERROR_SUCCESS) :
    applyDispatcherErrors storageUnit writes = storageUnit := by
  induction writes with
  | nil => rfl
  | cons w rest ih =>
      have hstep : SpdStorageUnitSetDispatcherError storageUnit w =
          storageUnit := by
        unfold SpdStorageUnitSetDispatcherError
        by_cases hw : w = ERROR_SUCCESS
        · simp [hw]
        · simp [hw, h]
      show applyDispatcherErrors
          (SpdStorageUnitSetDispatcherError storageUnit w) rest = storageUnit
      rw [hstep, ih]

/-- Helper: a sequence of set calls all carrying ERROR_SUCCESS leaves the
unit unchanged. -/
theorem applyDispatcherErrors_all_success
    (storageUnit : SPD_STORAGE_UNIT) (writes : List DWORD)
    (h : ∀ w ∈ writes, w = ERROR_SUCCESS) :
    applyDispatcherErrors storageUnit writes = storageUnit := by
  induction writes with
  | nil => rfl
  | cons w rest ih =>
      have hw : w = ERROR_SUCCESS := h w (List.mem_cons_self w rest)
      have hstep : SpdStorageUnitSetDispatcherError storageUnit w =
          storageUnit := by
        unfold SpdStorageUnitSetDispatcherError
        simp [hw]
      show applyDispatcherErrors
          (SpdStorageUnitSetDispatcherError storageUnit w) rest = storageUnit
      rw [hstep]
      exact ih fun x hx => h x (List.mem_cons_of_mem w hx)

/-- Helper: one set call leaves the register either unchanged or holding the
code the call supplied. -/
theorem setDispatcherError_register_cases
    (storageUnit : SPD_STORAGE_UNIT) (w : DWORD) :
    (SpdStorageUnitSetDispatcherError storageUnit w).DispatcherError =
      storageUnit.DispatcherError ∨
    (SpdStorageUnitSetDispatcherError storageUnit w).DispatcherError = w := by
  unfold SpdStorageUnitSetDispatcherError
  by_cases hw : w = ERROR_SUCCESS
  · left; simp [hw]
  · by_cases hr : storageUnit.DispatcherError = ERROR_SUCCESS
    · right; simp [hw, hr]
    · left; simp [hw, hr]

/-- Helper: after any sequence of set calls the register holds either its
starting value or one of the codes supplied by the calls. -/
theorem applyDispatcherErrors_register_mem
    (storageUnit : SPD_STORAGE_UNIT) (writes : List DWORD) :
    (applyDispatcherErrors storageUnit writes).DispatcherError =
      storageUnit.DispatcherError ∨
    (applyDispatcherErrors storageUnit writes).DispatcherError ∈ writes := by
  induction writes generalizing storageUnit with
  | nil => left; rfl
  | cons w rest ih =>
      have hstep :
          applyDispatcherErrors storageUnit (w :: rest) =
            applyDispatcherErrors
              (SpdStorageUnitSetDispatcherError storageUnit w) rest := rfl
      rw [hstep]
      rcases ih (SpdStorageUnitSetDispatcherError storageUnit w) with h | h
      · rw [h]
        rcases setDispatcherError_register_cases storageUnit w with h2 | h2
        · left; exact h2
        · right; rw [h2]; exact List.mem_cons_self w rest
      · right; exact List.mem_cons_of_mem w h

/-- Claim C1: starting from a register holding ERROR_SUCCESS, after any
sequence of SpdStorageUnitSetDispatcherError calls whose first non-success
code is v, the register holds v; since this holds for every suffix after
that first non-success write, every later call leaves the register
unchanged regardless of the code it supplies. -/
theorem spdSetDispatcherError_first_write_wins
    (storageUnit : SPD_STORAGE_UNIT) (pre : List DWORD) (v : DWORD)
    (post : List DWORD)
    (hinit : storageUnit.DispatcherError = ERROR_SUCCESS)
    (hpre : ∀ w ∈ pre, w = ERROR_SUCCESS)
    (hv : v ≠ ERROR_SUCCESS) :
    (applyDispatcherErrors storageUnit (pre ++ v :: post)).DispatcherError
      = v := by
  have happ :
      applyDispatcherErrors storageUnit (pre ++ v :: post) =
        applyDispatcherErrors (applyDispatcherErrors storageUnit pre)
          (v :: post) := by
    unfold applyDispatcherErrors
    exact List.foldl_append _ _ _ _
  rw [happ, applyDispatcherErrors_all_success storageUnit pre hpre]
  have hstep : SpdStorageUnitSetDispatcherError storageUnit v =
      { storageUnit with DispatcherError := v } := by
    unfold SpdStorageUnitSetDispatcherError
    simp [hv, hinit]
  have hrest :
      applyDispatcherErrors storageUnit (v :: post) =
        applyDispatcherErrors { storageUnit with DispatcherError := v }
          post := by
    show applyDispatcherErrors
        (SpdStorageUnitSetDispatcherError storageUnit v) post = _
    rw [hstep]
  rw [hrest, applyDispatcherErrors_of_ne _ post hv]

/-- Concrete unit with a clear dispatcher error register. -/
def storageUnit0 : SPD_STORAGE_UNIT := ⟨2, 0, 0, 0, 0, 0, 0, 0, 0, 0, 0⟩

/-- Witness for C1 at a concrete unit and sequence. -/
theorem spdSetDispatcherError_first_write_wins_witness :
    (applyDispatcherErrors storageUnit0
      ([ERROR_SUCCESS, ERROR_SUCCESS] ++ 5 :: [7, 0, 5])).DispatcherError
      = 5 :=
  spdSetDispatcherError_first_write_wins storageUnit0
    [ERROR_SUCCESS, ERROR_SUCCESS] 5 [7, 0, 5] rfl (by decide) (by decide)

/-- Claim C2: setting a sense condition with an information value yields a
check-condition status with the supplied sense key, additional sense code
and information, with the validity flag set. -/
theorem spdStatusSetSense_some_fields
    (status : SPD_STORAGE_UNIT_STATUS) (senseKey asc information : Nat) :
    (SpdStorageUnitStatusSetSense status senseKey asc
        (some information)).ScsiStatus = SCSISTAT_CHECK_CONDITION ∧
    (SpdStorageUnitStatusSetSense status senseKey asc
        (some information)).SenseKey = senseKey ∧
    (SpdStorageUnitStatusSetSense status senseKey asc
        (some information)).ASC = asc ∧
    (SpdStorageUnitStatusSetSense status senseKey asc
        (some information)).Information = information ∧
    (SpdStorageUnitStatusSetSense status senseKey asc
        (some information)).InformationValid = 1 :=
  ⟨rfl, rfl, rfl, rfl, rfl⟩

/-- Counterexample to C3 as stated: on a status whose validity flag is
already set, a sense call with a null information pointer does not leave
the flag false; it is left at 1. -/
theorem spdStatusSetSense_none_not_invalid :
    ¬ ((SpdStorageUnitStatusSetSense ⟨0, 0, 0, 42, 1⟩ 3 33
        none).InformationValid = 0) := by
  decide

/-- Claim C3 (amended): a sense call with a null information pointer leaves
both the Information field and the InformationValid flag unchanged; in
particular the flag is false afterward exactly when it was false before. -/
theorem spdStatusSetSense_none_preserves
    (status : SPD_STORAGE_UNIT_STATUS) (senseKey asc : Nat) :
    (SpdStorageUnitStatusSetSense status senseKey asc none).Information =
      status.Information ∧
    (SpdStorageUnitStatusSetSense status senseKey asc none).InformationValid
      = status.InformationValid :=
  ⟨rfl, rfl⟩

/-- Claim C4: for every status, sense key, additional sense code and
information pointer (null or not), the sense call forces ScsiStatus to the
check-condition value and stores the supplied sense key and code. -/
theorem spdStatusSetSense_forces_check_condition
    (status : SPD_STORAGE_UNIT_STATUS) (senseKey asc : Nat)
    (pInformation : Option Nat) :
    (SpdStorageUnitStatusSetSense status senseKey asc
        pInformation).ScsiStatus = SCSISTAT_CHECK_CONDITION ∧
    (SpdStorageUnitStatusSetSense status senseKey asc
        pInformation).SenseKey = senseKey ∧
    (SpdStorageUnitStatusSetSense status senseKey asc
        pInformation).ASC = asc := by
  cases pInformation <;> exact ⟨rfl, rfl, rfl⟩

/-- Claim C5: after any sequence of completed set calls, starting from a
register holding ERROR_SUCCESS, a get returns a fully-formed register
value: either ERROR_SUCCESS or one of the codes passed to a set call. -/
theorem spdGetDispatcherError_fully_formed
    (storageUnit : SPD_STORAGE_UNIT) (writes : List DWORD)
    (hinit : storageUnit.DispatcherError = ERROR_SUCCESS) :
    (SpdStorageUnitGetDispatcherError
        (applyDispatcherErrors storageUnit writes)).1 = ERROR_SUCCESS ∨
    (SpdStorageUnitGetDispatcherError
        (applyDispatcherErrors storageUnit writes)).1 ∈ writes := by
  rcases applyDispatcherErrors_register_mem storageUnit writes with h | h
  · left
    show (applyDispatcherErrors storageUnit writes).DispatcherError = _
    rw [h, hinit]
  · right; exact h

/-- Witness for C5 at a concrete unit and write sequence. -/
theorem spdGetDispatcherError_fully_formed_witness :
    (SpdStorageUnitGetDispatcherError
        (applyDispatcherErrors storageUnit0 [0, 3, 5])).1 = ERROR_SUCCESS ∨
    (SpdStorageUnitGetDispatcherError
        (applyDispatcherErrors storageUnit0 [0, 3, 5])).1 ∈ [0, 3, 5] :=
  spdGetDispatcherError_fully_formed storageUnit0 [0, 3, 5] rfl

/-- Claim C6: the sense call is a pure transform of the caller-owned status
value, fully characterized by a record update that touches only ScsiStatus,
SenseKey and ASC, plus Information and InformationValid when an information
value is supplied; every other part of the status is carried over. -/
theorem spdStatusSetSense_frame
    (status : SPD_STORAGE_UNIT_STATUS) (senseKey asc : Nat) :
    (∀ information,
      SpdStorageUnitStatusSetSense status senseKey asc (some information) =
        { status with
          ScsiStatus := SCSISTAT_CHECK_CONDITION
          SenseKey := senseKey
          ASC := asc
          Information := information
          InformationValid := 1 }) ∧
    SpdStorageUnitStatusSetSense status senseKey asc none =
      { status with
        ScsiStatus := SCSISTAT_CHECK_CONDITION
        SenseKey := senseKey
        ASC := asc } :=
  ⟨fun _ => rfl, rfl⟩

/-- Claim C7: an unmap call with an empty descriptor sequence reports
success and issues no backing I/O, for every backing store. -/
theorem unmapCallback_empty_noop (backing : SPD_UNMAP_DESCRIPTOR → Bool) :
    unmapCallback backing [] = (true, []) :=
  rfl

/-- Claim C8: a set call carrying ERROR_SUCCESS leaves the whole storage
unit unchanged, and any set call on a unit whose register already holds a
non-success code leaves the whole unit unchanged, so the register can never
return to ERROR_SUCCESS once non-success. -/
theorem spdSetDispatcherError_success_noop
    (storageUnit : SPD_STORAGE_UNIT) (code : DWORD) :
    SpdStorageUnitSetDispatcherError storageUnit ERROR_SUCCESS =
      storageUnit ∧
    (storageUnit.DispatcherError ≠ ERROR_SUCCESS →
      SpdStorageUnitSetDispatcherError storageUnit code = storageUnit) := by
  constructor
  · unfold SpdStorageUnitSetDispatcherError
    simp
  · intro h
    unfold SpdStorageUnitSetDispatcherError
    by_cases hc : code = ERROR_SUCCESS <;> simp [hc, h]

/-- Concrete unit whose dispatcher error register holds a non-success
code. -/
def storageUnit5 : SPD_STORAGE_UNIT := ⟨2, 0, 0, 0, 0, 0, 0, 0, 0, 5, 0⟩

/-- Witness for C8 at a concrete unit. -/
theorem spdSetDispatcherError_success_noop_witness :
    SpdStorageUnitSetDispatcherError storageUnit5 ERROR_SUCCESS =
      storageUnit5 ∧
    SpdStorageUnitSetDispatcherError storageUnit5 7 = storageUnit5 :=
  ⟨(spdSetDispatcherError_success_noop storageUnit5 7).1,
   (spdSetDispatcherError_success_noop storageUnit5 7).2 (by decide)⟩

/-- Claim C9: a sense call with a null information pointer retains the
prior Information and InformationValid values; in particular a validity
flag already at 1 stays at 1 (the call never clears it). -/
theorem spdStatusSetSense_none_retains_valid
    (status : SPD_STORAGE_UNIT_STATUS) (senseKey asc : Nat) :
    (SpdStorageUnitStatusSetSense status senseKey asc none).Information =
      status.Information ∧
    (SpdStorageUnitStatusSetSense status senseKey asc none).InformationValid
      = status.InformationValid ∧
    (status.InformationValid = 1 →
      (SpdStorageUnitStatusSetSense status senseKey asc
          none).InformationValid = 1) :=
  ⟨rfl, rfl, fun h => h⟩

/-- Witness for C9 at a concrete status with the validity flag set. -/
theorem spdStatusSetSense_none_retains_valid_witness :
    (SpdStorageUnitStatusSetSense ⟨0, 0, 0, 42, 1⟩ 3 33 none).Information
      = 42 ∧
    (SpdStorageUnitStatusSetSense ⟨0, 0, 0, 42, 1⟩ 3 33
        none).InformationValid = 1 :=
  ⟨(spdStatusSetSense_none_retains_valid ⟨0, 0, 0, 42, 1⟩ 3 33).1,
   (spdStatusSetSense_none_retains_valid ⟨0, 0, 0, 42, 1⟩ 3 33).2.2 rfl⟩

/-- Claim C10: a get stores the current register value through the
out-pointer and leaves every field of the storage unit unchanged. -/
theorem spdGetDispatcherError_read_only (storageUnit : SPD_STORAGE_UNIT) :
    (SpdStorageUnitGetDispatcherError storageUnit).1 =
      storageUnit.DispatcherError ∧
    (SpdStorageUnitGetDispatcherError storageUnit).2 = storageUnit :=
  ⟨rfl, rfl⟩

end WinSpd
